import Mathlib

/-!
# Verification of the Diya analytics agent pipeline

Shallow embedding of the repository's three modules:

* `agent.py` — `filter_fields` (Field Projector), the `selector`, `loader`,
  `model` nodes, the `get_summary` tool, and the LangGraph wiring;
* `script.py` — the cache-refresh batch (`main` over `SHEETS`);
* `main.py`  — the FastAPI `/chat` endpoint with its module-level `thread_id`.

Python JSON values are modelled by the inductive `Val`; Python dictionaries
by association lists (`List (String × _)`) with a lookup that returns the
first (and, for values built by Python, only) binding of a key.  Python
exceptions are modelled by `Except String`.
-/

set_option autoImplicit false

namespace Diya

/-- A JSON-ish Python value as it appears in sheet payloads: strings,
integers, `None`, lists, and dictionaries (association lists). -/
inductive Val where
  | vstr  : String → Val
  | vint  : Int → Val
  | vnull : Val
  | vlist : List Val → Val
  | vdict : List (String × Val) → Val

/-- A row-record: a dictionary from field names to cell values. -/
abbrev Row := List (String × Val)

/-- First-match lookup in a string-keyed association list; Python
dictionaries never hold a key twice, so first-match agrees with `d[k]`. -/
def slookup {V : Type} (k : String) : List (String × V) → Option V
  | [] => none
  | (k', v) :: rest => if k' = k then some v else slookup k rest

/-- Python `d.get(k, default)`. -/
def dictGet (d : List (String × Val)) (k : String) (default : Val) : Val :=
  (slookup k d).getD default

/-- Rebind one entry: the binding for `k` gets the new value `v`, every
other binding is kept as is. -/
def replaceKey {V : Type} (k : String) (v : V) : String × V → String × V
  | (a, b) => if a = k then (k, v) else (a, b)

/-- Python `d[k] = v` on a dictionary: updates the value in place when the
key is present (its position is kept), otherwise appends the new binding. -/
def pyDictInsert {V : Type} (d : List (String × V)) (k : String) (v : V) :
    List (String × V) :=
  if (slookup k d).isSome then
    d.map (replaceKey k v)
  else
    d ++ [(k, v)]

/-- Python `str()` on the scalar values sheet cells hold: a string prints
verbatim, an integer in decimal, `None` as `"None"`.  Cells of fetched
sheets are JSON scalars; a container cell would print with Python's
`repr`-based formatting, which no property proved here ever inspects, so
containers are mapped to fixed markers. -/
def pyStr : Val → String
  | .vstr s => s
  | .vint n => toString n
  | .vnull => "None"
  | .vlist _ => "[...]"
  | .vdict _ => "(dict)"

/-! ## Field Projector: `filter_fields` (agent.py lines 21-61) -/

/-- One step of the dict comprehension
`\x7bk: row[k] for k in keep_fields if k in row\x7d`: when the row has the key,
bind it in the dictionary being built, otherwise skip it. -/
def frStep (row : Row) (d : Row) (k : String) : Row :=
  match slookup k row with
  | some v => pyDictInsert d k v
  | none => d

/-- The dict comprehension `\x7bk: row[k] for k in keep_fields if k in row\x7d`
from `filter_fields`: iterate the keep-list in order, copying a binding
whenever the row has the key. -/
def filtered_row (row : Row) (keep : List String) : Row :=
  keep.foldl (frStep row) []

/-- The row loop of `filter_fields`: each row must be a dictionary (Python
raises `TypeError`/`AttributeError` in the loop body for the non-mapping
rows that occur in practice; every snapshot this system builds has mapping
rows), and each is reduced by `filtered_row`. -/
def filterRows (keep : List String) : List Val → Except String (List Val)
  | [] => .ok []
  | .vdict row :: rest =>
      (filterRows keep rest).map (fun out => Val.vdict (filtered_row row keep) :: out)
  | _ :: _ => .error "TypeError: row is not a mapping"

/-- `filter_fields(data, fields_to_keep)` from agent.py: for each heading,
look up its keep-list (default `[]`), read `content.get("rows", [])`,
filter every row, and emit `\x7b"rows": filtered, "total_rows": len(content.get("rows", []))\x7d`. -/
def filter_fields : List (String × Val) → List (String × List String) →
    Except String (List (String × Val))
  | [], _ => .ok []
  | (heading, content) :: rest, fields_to_keep =>
    let keep := (slookup heading fields_to_keep).getD []
    match content with
    | .vdict c =>
      match dictGet c "rows" (.vlist []) with
      | .vlist rows =>
        match filterRows keep rows with
        | .ok filtered =>
            (filter_fields rest fields_to_keep).map
              (fun out =>
                (heading,
                  Val.vdict [("rows", Val.vlist filtered),
                             ("total_rows", Val.vint (rows.length : Int))]) :: out)
        | .error e => .error e
      | _ => .error "TypeError: rows value is not a list"
    | _ => .error "AttributeError: sheet content is not a mapping"

/-! ## Agent state (agent.py lines 64-67) -/

/-- One conversation message.  `tool_calls` is the list of tool invocations
an assistant message requests (empty for every other message). -/
structure Message where
  role : String
  content : String
  tool_calls : List String
  deriving DecidableEq

/-- `AgentState.data` is annotated `str | dict` in the source: the empty
string when no sheet was selected, otherwise the loaded mapping. -/
inductive DataField where
  | str  : String → DataField
  | dict : List (String × Val) → DataField

/-- A valid JSON value that is not an object: an array, a string, a
number, or `null`.  `json.loads` can hand any of these to the selector. -/
inductive NonDictJson where
  | arr  : List Val → NonDictJson
  | str  : String → NonDictJson
  | int  : Int → NonDictJson
  | null : NonDictJson

/-- What `relevant_sheets` can actually hold at runtime.  The state's
annotation says `Dict[str, List[str]]`, but nothing enforces it: the
selector stores whatever `json.loads` produced, so the field is either a
mapping of that shape or some other JSON value. -/
inductive RelSheets where
  | mapping : List (String × List String) → RelSheets
  | other   : NonDictJson → RelSheets

/-- The LangGraph `AgentState`: conversation messages, the relevance
selection, and the loaded data snapshot. -/
structure AgentState where
  messages : List Message
  relevant_sheets : RelSheets
  data : DataField

/-- Python `len()` on a non-dict JSON value: arrays and strings have a
length, numbers and `None` raise `TypeError`. -/
def pyLenNonDict : NonDictJson → Except String Nat
  | .arr l => .ok l.length
  | .str s => .ok s.length
  | .int _ => .error "TypeError: object of type int has no len()"
  | .null => .error "TypeError: object of type NoneType has no len()"

/-! ## `get_summary` tool (agent.py lines 85-112) -/

/-- The whitespace characters Python's `str.strip()` removes. -/
def isPySpace (c : Char) : Bool :=
  c = ' ' || c = '\t' || c = '\n' || c = '\x0d' || c = '\x0b' || c = '\x0c'

/-- Python `s.strip()`: drop leading and trailing whitespace. -/
def pyStrip (s : String) : String :=
  String.mk (((s.data.dropWhile isPySpace).reverse.dropWhile isPySpace).reverse)

/-- The loop condition of `get_summary`:
`str(row.get(id_field, "")).strip() == str(id_value).strip()`. -/
def rowMatches (row : Row) (id_field id_value : String) : Bool :=
  pyStrip (pyStr (dictGet row id_field (.vstr ""))) == pyStrip id_value

/-- The `for row in rows` loop of `get_summary`: return the first matching
row, `None` when the list is exhausted; a non-mapping row makes Python
raise `AttributeError` at `row.get`. -/
def findMatch (id_field id_value : String) : List Val → Except String (Option Row)
  | [] => .ok none
  | .vdict row :: rest =>
      if rowMatches row id_field id_value then .ok (some row)
      else findMatch id_field id_value rest
  | _ :: _ => .error "AttributeError: row has no attribute get"

/-- `get_summary(sheet_name, id_field, id_value, state)` from agent.py.
Faithful to the source, including its double indexing:
`data = state["data"][sheet_name]` followed by
`rows = data.get(sheet_name, \x7b\x7d).get("rows", [])` — the sheet name is
looked up a second time *inside* the sheet's own content dictionary. -/
def get_summary (sheet_name id_field id_value : String) (st : AgentState) :
    Except String (Option Row) :=
  match st.data with
  | .str _ => .error "TypeError: string indices must be integers"
  | .dict d =>
    match slookup sheet_name d with
    | none => .error "KeyError"
    | some content =>
      match content with
      | .vdict c =>
        match dictGet c sheet_name (.vdict []) with
        | .vdict inner =>
          match dictGet inner "rows" (.vlist []) with
          | .vlist rows => findMatch id_field id_value rows
          | .vstr s => if s = "" then .ok none else .error "AttributeError"
          | .vdict keys => if keys.isEmpty then .ok none else .error "AttributeError"
          | _ => .error "TypeError: not iterable"
        | _ => .error "AttributeError: value has no attribute get"
      | _ => .error "AttributeError: value has no attribute get"

/-- The rows actually loaded for a sheet: `state["data"][sheet]["rows"]`.
(Accessor used only to state properties, mirroring how `loader` and
`filter_fields` read the snapshot.) -/
def loadedRows (st : AgentState) (sheet : String) : List Val :=
  match st.data with
  | .str _ => []
  | .dict d =>
    match slookup sheet d with
    | some (.vdict c) =>
      match slookup "rows" c with
      | some (.vlist rows) => rows
      | _ => []
    | _ => []

/-! ## Relevance Selector (agent.py lines 122-200) -/

/-- The Sheet Catalog embedded in the selector prompt (agent.py lines
126-160): the ten sheets and their permitted field lists. -/
def sheetCatalog : List (String × List String) :=
  [("Checklist",
    ["Timestamp", "Task ID", "Firm", "Given By", "Name", "Task Description",
     "Task Start Date", "Freq", "Enable Reminders", "Require Attachment",
     "Actual", "Delay", "Status", "Remarks", "Uploaded Image"]),
   ("Delegation",
    ["Timestamp", "Task ID", "Firm", "Given By", "Name", "Task Description",
     "Task Start Date", "Freq", "Enable Reminders", "Require Attachment",
     "Planned Date", "Actual", "Delay", "Status", "Update Date", "Reasons",
     "Total Extent"]),
   ("Purchase Intransit",
    ["Timestamp", "LN-Lift Number", "Type", "Po Number", "Bill No.",
     "Party Name", "Product Name", "Qty", "Area Lifting",
     "Lead Time To Reach Factory", "Truck No.", "Driver No.",
     "Transporter Name", "Bill Image", "Bilty No.", "Type Of Rate", "Rate",
     "Truck Qty", "Material Rate", "Bilty Image", "Expected Date To Reach"]),
   ("Purchase Receipt",
    ["Timestamp", "Lift Number", "PO Number", "Bill Number", "Party Name",
     "Product Name", "Date Of Receiving", "Total Bill Quantity",
     "Actual Quantity", "Qty Difference", "Physical Condition", "Moisture",
     "Physical Image Of Product", "Image Of Weight Slip", "Bilty Image",
     "Bilty No.", "Qty Difference Status", "Difference Qty", "Type"]),
   ("Orders Pending",
    ["Timestamp", "DO-Delivery Order No.", "PARTY PO NO (As Per Po Exact)",
     "Party PO Date", "Party Names", "Product Name", "Quantity",
     "Rate Of Material", "Type Of Transporting", "Upload SO",
     "Is This Order Through Some Agent", "Order Received From",
     "Type Of Measurement", "Contact Person Name",
     "Contact Person WhatsApp No.", "Alumina%", "Iron%", "Type Of PI",
     "Lead Time For Collection Of Final Payment", "Quantity Delivered",
     "Order Cancel", "Pending Qty", "Material Return", "Status"]),
   ("Sales Invoices",
    ["Timestamp", "Bill Date", "Delivery Order No.", "Party Name",
     "Product Name", "Quantity Delivered.", "Bill No.", "Logistic No.",
     "Rate Of Material", "Type Of Transporting", "Transporter Name",
     "Vehicle Number."]),
   ("Collection Pending",
    ["Party Names", "Total Pending Amount", "Expected Date Of Payment",
     "Collection Remarks"]),
   ("Production Orders",
    ["Timestamp", "Delivery Order No.", "Party Name", "Product Name",
     "Order Quantity", "Expected Delivery Date", "Order Cancel",
     "Actual Production Planned", "Actual Production Done",
     "Stock Transfered", "Quantity Delivered", "Quantity In Stock",
     "Planning Pending", "Production Pending", "Status"]),
   ("Job Card Production",
    ["Timestamp", "Do Number", "Party Name", "Machine Name", "Job Card No.",
     "Date Of Production", "Name Of Supervisor", "Product Name",
     "Quantity Of FG"]),
   ("PO Pending",
    ["Timestamp", "Indent Number", "Have To Make Po", "Party Name",
     "Product Name", "Quantity", "Rate", "Alumina %", "Iron %",
     "Lead Time To Lift Total Qty", "PO Copy", "Total Amount",
     "Advance To Be Paid", "To Be Paid Amount", "When To Be Paid", "Notes",
     "Total Lifted", "Pending Qty", "Order Cancel Qty", "Status"])]

/-- The possible outcomes of `json.loads` on the oracle's text:
`mapping m` when the text parses as a JSON object of the state's annotated
`Dict[str, List[str]]` shape, `nonDict j` when it parses as valid JSON
that is not an object (an array, a string, a number, `null`), and
`failure` when `json.loads` raises. -/
inductive ParseOutcome where
  | mapping : List (String × List String) → ParseOutcome
  | nonDict : NonDictJson → ParseOutcome
  | failure : ParseOutcome

/-- The tail of the `selector` node (agent.py lines 193-200): the oracle's
text is fed to `json.loads`.  The bare `except` substitutes the empty
mapping only when `json.loads` raises; any successfully parsed value —
expected shape or not — is stored in `relevant_sheets` verbatim, with no
check against `sheetCatalog`. -/
def selectorUpdate (st : AgentState) (parsed : ParseOutcome) : AgentState :=
  match parsed with
  | .mapping m => { st with relevant_sheets := .mapping m }
  | .nonDict j => { st with relevant_sheets := .other j }
  | .failure => { st with relevant_sheets := .mapping [] }

/-! ## Data Fetcher: `loader` node (agent.py lines 202-210) -/

/-- The post-processing loop of `loader`:
`for key in data.keys(): data[key]["total_rows"] = len(data[key]["rows"]) - 1`.
A sheet value without a `"rows"` list makes Python raise (`KeyError` /
`TypeError`); the remote contract returns `\x7b"rows": [...]\x7d` per sheet. -/
def loaderPost : List (String × Val) → Except String (List (String × Val))
  | [] => .ok []
  | (k, .vdict c) :: rest =>
    match slookup "rows" c with
    | some (.vlist rows) =>
        (loaderPost rest).map
          (fun out =>
            (k, Val.vdict (pyDictInsert c "total_rows" (Val.vint ((rows.length : Int) - 1)))) :: out)
    | _ => .error "KeyError: rows"
  | (_, _) :: _ => .error "TypeError: sheet value is not a mapping"

/-- The `loader` node (agent.py lines 202-210).  `fetchResult` is the
outcome of `requests.request(...)` plus `response.json()` — `Except.error`
when the fetch or the JSON decoding raises.  The node has no `try`: a
raised exception propagates out of the node and aborts the turn.
Evaluation order follows the source: `len(state['relevant_sheets'])` runs
first (raising `TypeError` on an unsized value), then, when the length is
non-zero, `state['relevant_sheets'].keys()` is evaluated while building
the request URL (raising `AttributeError` on a non-dict) before any fetch
happens. -/
def loader (st : AgentState) (fetchResult : Except String (List (String × Val))) :
    Except String AgentState :=
  match st.relevant_sheets with
  | .mapping m =>
    if m.length ≠ 0 then
      match fetchResult with
      | .error e => .error e
      | .ok d =>
        match loaderPost d with
        | .ok d' => .ok { st with data := .dict d' }
        | .error e => .error e
    else
      .ok { st with data := .str "" }
  | .other j =>
    match pyLenNonDict j with
    | .error e => .error e
    | .ok n =>
      if n ≠ 0 then .error "AttributeError: object has no attribute keys"
      else .ok { st with data := .str "" }

/-! ## Graph wiring (agent.py lines 253-268) -/

/-- The graph's nodes; `done` stands for LangGraph's `END`. -/
inductive Node where
  | selector | loader | model | tools | done
  deriving DecidableEq

/-- LangGraph's `tools_condition` router: route to `"tools"` when the last
message carries at least one tool call, otherwise to `END`. -/
def tools_condition (st : AgentState) : Node :=
  match st.messages.getLast? with
  | some m => if m.tool_calls ≠ [] then .tools else .done
  | none => .done

/-- The edges compiled by `StateGraph` (agent.py lines 257-268):
`selector → loader → model`, `tools → model`, and the conditional edge
out of `model` given by `tools_condition`. -/
def nextNode (st : AgentState) : Node → Node
  | .selector => .loader
  | .loader => .model
  | .model => tools_condition st
  | .tools => .model
  | .done => .done

/-- `ToolNode` followed by the `add_messages` reducer: the tool results —
one `ToolMessage` per requested call — are appended to the conversation. -/
def toolNode (st : AgentState) (results : List Message) : AgentState :=
  { st with messages := st.messages ++ results }

/-- The last oracle response requests at least one tool invocation. -/
def requestsToolCalls (st : AgentState) : Prop :=
  ∃ m, st.messages.getLast? = some m ∧ m.tool_calls ≠ []

/-! ## Cache refresh: script.py -/

/-- The `SHEETS` list of script.py (nine tabs; the agent catalog's tenth
sheet, "PO Pending", is absent from it). -/
def SHEETS : List String :=
  ["Checklist", "Delegation", "Purchase Intransit", "Purchase Receipt",
   "Orders Pending", "Sales Invoices", "Collection Pending",
   "Production Orders", "Job Card Production"]

/-- The per-sheet outcome `main` prints: a ✅ save or a ❌ failure. -/
inductive RefreshEvent where
  | saved  : String → Val → RefreshEvent
  | failed : String → String → RefreshEvent

/-- The sheet a refresh event concerns. -/
def eventSheet : RefreshEvent → String
  | .saved s _ => s
  | .failed s _ => s

/-- The body of `main`'s `try`: `fetch_sheet(sheet)` then
`save_json(sheet, data)`; either may raise (network error,
`raise_for_status`, JSON decoding, file I/O). -/
def refreshSheet (fetch : String → Except String Val)
    (save : String → Val → Except String Unit) (s : String) :
    Except String Val := do
  let d ← fetch s
  let _ ← save s d
  pure d

/-- `main()` of script.py: iterate `SHEETS` in order; `except Exception`
turns a raised error into a reported failure and the loop continues. -/
def mainRefresh (fetch : String → Except String Val)
    (save : String → Val → Except String Unit) : List RefreshEvent :=
  SHEETS.map (fun s =>
    match refreshSheet fetch save s with
    | .ok d => .saved s d
    | .error e => .failed s e)

/-! ## HTTP surface: main.py -/

/-- The `config` dictionary of main.py line 19, built once at module import
from the module-level `thread_id` of line 18. -/
structure ChatConfig where
  thread_id : String
  deriving DecidableEq

/-- `config = \x7b"configurable": \x7b"thread_id": thread_id\x7d\x7d`. -/
def mkConfig (tid : String) : ChatConfig := ⟨tid⟩

/-- The `MemorySaver` checkpointer: per-`thread_id` conversation history. -/
abbrev Store := List (String × List Message)

/-- History stored under a thread id (empty when the thread is new). -/
def histOf (store : Store) (tid : String) : List Message :=
  (slookup tid store).getD []

/-- The `("user", req.message)` tuple `chat` streams into the graph. -/
def userMessage (text : String) : Message :=
  { role := "user", content := text, tool_calls := [] }

/-- One `agent.stream(..., config, ...)` call as seen by the checkpointer:
the history kept under `config.thread_id` is extended with the incoming
user message and the turn's assistant reply (the `add_messages` reducer
appends; the checkpointer persists per thread id). -/
def runChatTurn (store : Store) (cfg : ChatConfig) (req : String)
    (reply : Message) : Store :=
  pyDictInsert store cfg.thread_id
    (histOf store cfg.thread_id ++ [userMessage req, reply])

/-- The `POST /chat` handler (main.py lines 32-42): every request — the
body carries only `message`, no client or session identity — is streamed
under the one module-level config. -/
def chatEndpoint (tid : String) (store : Store) (req : String)
    (reply : Message) : Store :=
  runChatTurn store (mkConfig tid) req reply

/-- A sequence of `/chat` requests (possibly from distinct HTTP clients)
handled by one server process whose module-level thread id is `tid`. -/
def handleRequests (tid : String) (store : Store)
    (reqs : List (String × Message)) : Store :=
  reqs.foldl (fun s rr => chatEndpoint tid s rr.1 rr.2) store

/-! ## Property vocabulary -/

/-- No-fabrication property of a projected row against its source row:
every binding of the projected row is a binding of the source row, and a
field the source row lacks stays absent (it is not added as `null`). -/
def RowNoFab (srow frow : Row) : Prop :=
  (∀ k v, (k, v) ∈ frow → slookup k srow = some v) ∧
  (∀ k, slookup k srow = none → slookup k frow = none)

/-- No-fabrication property at the level of `Val` rows. -/
def ValNoFab (src fil : Val) : Prop :=
  ∃ srow frow, src = Val.vdict srow ∧ fil = Val.vdict frow ∧ RowNoFab srow frow

/-- The rows a sheet's content dictionary carries, read the way
`filter_fields` reads them: `content.get("rows", [])`, empty for anything
that is not a list of rows. -/
def rowsOfContent (v : Val) : List Val :=
  match v with
  | .vdict c =>
    match dictGet c "rows" (.vlist []) with
    | .vlist l => l
    | _ => []
  | _ => []

/-- The `total_rows` entry of a sheet's content dictionary, when it is an
integer. -/
def totalRowsVal (v : Val) : Option Int :=
  match v with
  | .vdict c =>
    match slookup "total_rows" c with
    | some (.vint n) => some n
    | _ => none
  | _ => none

/-- The `total_rows` of a named sheet inside a loaded or projected data
mapping. -/
def sheetTotalRows (d : List (String × Val)) (sheet : String) : Option Int :=
  match slookup sheet d with
  | some v => totalRowsVal v
  | none => none

/-! ## Concrete values used by counterexamples and witnesses -/

/-- A remote response carrying one sheet, `Checklist`, with two rows. -/
def exResp : List (String × Val) :=
  [("Checklist",
    .vdict [("rows",
      .vlist [.vdict [("Task ID", .vstr "T1")],
              .vdict [("Task ID", .vstr "T2")]])])]

/-- `exResp` after the loader's post-processing: `total_rows = 2 - 1 = 1`. -/
def exLoaded : List (String × Val) :=
  [("Checklist",
    .vdict [("rows",
      .vlist [.vdict [("Task ID", .vstr "T1")],
              .vdict [("Task ID", .vstr "T2")]]),
      ("total_rows", .vint 1)])]

/-- A selection keeping only `Task ID` of `Checklist`. -/
def exSel : List (String × List String) := [("Checklist", ["Task ID"])]

/-- `filter_fields exLoaded exSel`: same rows, `total_rows = 2`. -/
def exProj : List (String × Val) :=
  [("Checklist",
    .vdict [("rows",
      .vlist [.vdict [("Task ID", .vstr "T1")],
              .vdict [("Task ID", .vstr "T2")]]),
      ("total_rows", .vint 2)])]

/-- A data mapping with one sheet, one two-field row. -/
def exData : List (String × Val) :=
  [("Checklist",
    .vdict [("rows",
      .vlist [.vdict [("Task ID", .vstr "T1"), ("Status", .vstr "Pending")]]),
      ("total_rows", .vint 0)])]

/-- `filter_fields exData exSel`: the `Status` field is projected away. -/
def exOut : List (String × Val) :=
  [("Checklist",
    .vdict [("rows", .vlist [.vdict [("Task ID", .vstr "T1")]]),
      ("total_rows", .vint 1)])]

/-- Agent state whose loaded snapshot holds one `Checklist` row with
`Task ID = "T1"` — the shape `loader` produces. -/
def exState1 : AgentState :=
  { messages := [],
    relevant_sheets := .mapping [("Checklist", ["Task ID"])],
    data := .dict [("Checklist",
      .vdict [("rows", .vlist [.vdict [("Task ID", .vstr "T1")]]),
        ("total_rows", .vint 0)])] }

/-- A fresh agent state (no selection, no data). -/
def exState3 : AgentState :=
  { messages := [], relevant_sheets := .mapping [], data := .str "" }

/-- Agent state with a non-empty relevance selection, before loading. -/
def exState4 : AgentState :=
  { messages := [],
    relevant_sheets := .mapping [("Checklist", ["Task ID"])],
    data := .str "" }

/-- Agent state whose last message is an assistant response requesting one
tool invocation. -/
def exState9 : AgentState :=
  { messages := [{ role := "assistant", content := "", tool_calls := ["get_datetime"] }],
    relevant_sheets := .mapping [],
    data := .str "" }

/-- One tool-result message. -/
def exResults : List Message :=
  [{ role := "tool", content := "01-01-2026 00:00:00", tool_calls := [] }]

/-- A checkpointer store already holding an unrelated thread. -/
def exStore : Store := [("other-thread", [])]

/-- A canned assistant reply. -/
def exReply : Message :=
  { role := "assistant", content := "Hello, I am Diya.", tool_calls := [] }

/-- Two `/chat` requests, as if sent by two different HTTP clients. -/
def exReqs : List (String × Message) :=
  [("hi", exReply), ("how many rows in Checklist", exReply)]

/-! ## Lemmas about dictionary primitives -/

theorem slookup_append_single {V : Type} (d : List (String × V)) (k k' : String) (v : V) :
    slookup k' (d ++ [(k, v)]) =
      match slookup k' d with
      | some w => some w
      | none => if k = k' then some v else none := by
  induction d with
  | nil => simp [slookup]
  | cons p rest ih =>
    by_cases h : p.1 = k'
    · simp [slookup, h]
    · simpa [slookup, h] using ih

theorem slookup_map_replace {V : Type} (d : List (String × V)) (k k' : String) (v : V) :
    slookup k' (d.map (replaceKey k v)) =
      if k' = k then (if (slookup k d).isSome then some v else none)
      else slookup k' d := by
  induction d with
  | nil => simp [slookup]
  | cons p rest ih =>
    obtain ⟨a, b⟩ := p
    rw [List.map_cons]
    by_cases hak : a = k
    · rw [show replaceKey k v (a, b) = (k, v) from if_pos hak]
      by_cases hk : k' = k
      · subst hk
        simp [slookup, hak, ih]
      · have hk2 : ¬ k = k' := fun h => hk h.symm
        simp [slookup, hak, hk, hk2, ih]
    · rw [show replaceKey k v (a, b) = (a, b) from if_neg hak]
      by_cases hk : k' = k
      · subst hk
        simp [slookup, hak, ih]
      · simp [slookup, hak, hk, ih]

theorem slookup_pyDictInsert {V : Type} (d : List (String × V)) (k k' : String) (v : V) :
    slookup k' (pyDictInsert d k v) =
      if k' = k then some v else slookup k' d := by
  unfold pyDictInsert
  by_cases hs : (slookup k d).isSome
  · rw [if_pos hs, slookup_map_replace]
    by_cases hk : k' = k <;> simp [hk, hs]
  · rw [if_neg hs, slookup_append_single]
    have hnone : slookup k d = none := Option.not_isSome_iff_eq_none.mp hs
    by_cases hk : k' = k
    · subst hk
      simp [hnone]
    · have hk2 : ¬ k = k' := fun h => hk h.symm
      cases h : slookup k' d with
      | none => simp [hk, hk2]
      | some w => simp [hk]

theorem mem_pyDictInsert {V : Type} {d : List (String × V)} {k : String} {v : V}
    {p : String × V} (hp : p ∈ pyDictInsert d k v) : p = (k, v) ∨ p ∈ d := by
  unfold pyDictInsert at hp
  by_cases hs : (slookup k d).isSome
  · rw [if_pos hs] at hp
    rcases List.mem_map.mp hp with ⟨q, hq, hqe⟩
    obtain ⟨qa, qb⟩ := q
    by_cases hqk : qa = k
    · left
      rw [← hqe, show replaceKey k v (qa, qb) = (k, v) from if_pos hqk]
    · right
      rw [← hqe, show replaceKey k v (qa, qb) = (qa, qb) from if_neg hqk]
      exact hq
  · rw [if_neg hs] at hp
    rcases List.mem_append.mp hp with h | h
    · right; exact h
    · left; simpa using h

/-! ## Lemmas about `filtered_row` -/

theorem frFold_lookup_not_mem (row : Row) (keep : List String) (acc : Row)
    (k' : String) (hk : k' ∉ keep) :
    slookup k' (keep.foldl (frStep row) acc) = slookup k' acc := by
  induction keep generalizing acc with
  | nil => rfl
  | cons k0 rest ih =>
    have hk0 : k' ≠ k0 := fun h => hk (h ▸ List.mem_cons_self k0 rest)
    have hrest : k' ∉ rest := fun h => hk (List.mem_cons_of_mem k0 h)
    rw [List.foldl_cons, ih _ hrest]
    unfold frStep
    cases h0 : slookup k0 row with
    | none => rfl
    | some v => rw [slookup_pyDictInsert, if_neg hk0]

theorem frFold_lookup_mem (row : Row) (keep : List String) (acc : Row)
    (k' : String) (hk : k' ∈ keep) :
    slookup k' (keep.foldl (frStep row) acc) =
      match slookup k' row with
      | some v => some v
      | none => slookup k' acc := by
  induction keep generalizing acc with
  | nil => cases hk
  | cons k0 rest ih =>
    rw [List.foldl_cons]
    by_cases hrest : k' ∈ rest
    · rw [ih _ hrest]
      cases hrow : slookup k' row with
      | some v => rfl
      | none =>
        unfold frStep
        cases h0 : slookup k0 row with
        | none => rfl
        | some v =>
          rw [slookup_pyDictInsert]
          have hne : k' ≠ k0 := by
            intro h; rw [h, h0] at hrow; cases hrow
          rw [if_neg hne]
    · have hk0 : k' = k0 := by
        rcases List.mem_cons.mp hk with h | h
        · exact h
        · exact absurd h hrest
      subst hk0
      rw [frFold_lookup_not_mem row rest _ _ hrest]
      unfold frStep
      cases h0 : slookup k' row with
      | none => rfl
      | some v => rw [slookup_pyDictInsert, if_pos rfl]

theorem filtered_row_lookup (row : Row) (keep : List String) (k : String) :
    slookup k (filtered_row row keep) =
      if k ∈ keep then slookup k row else none := by
  unfold filtered_row
  by_cases hk : k ∈ keep
  · rw [if_pos hk, frFold_lookup_mem row keep [] k hk]
    cases h : slookup k row <;> rfl
  · rw [if_neg hk, frFold_lookup_not_mem row keep [] k hk]; rfl

theorem frFold_congr (row₁ row₂ : Row) (keep : List String)
    (h : ∀ k ∈ keep, slookup k row₁ = slookup k row₂) (acc : Row) :
    keep.foldl (frStep row₁) acc = keep.foldl (frStep row₂) acc := by
  induction keep generalizing acc with
  | nil => rfl
  | cons k0 rest ih =>
    rw [List.foldl_cons, List.foldl_cons]
    have hstep : frStep row₁ acc k0 = frStep row₂ acc k0 := by
      unfold frStep
      rw [h k0 (List.mem_cons_self k0 rest)]
    rw [hstep]
    exact ih (fun k hk => h k (List.mem_cons_of_mem k0 hk)) _

theorem filtered_row_idem (row : Row) (keep : List String) :
    filtered_row (filtered_row row keep) keep = filtered_row row keep := by
  have hcongr : ∀ k ∈ keep, slookup k (filtered_row row keep) = slookup k row := by
    intro k hk
    rw [filtered_row_lookup, if_pos hk]
  calc filtered_row (filtered_row row keep) keep
      = filtered_row row keep := by
        unfold filtered_row
        exact frFold_congr _ _ keep hcongr []

theorem frFold_mem (row : Row) (keep : List String) (acc : Row)
    (hacc : ∀ p ∈ acc, slookup p.1 row = some p.2) :
    ∀ p ∈ keep.foldl (frStep row) acc, slookup p.1 row = some p.2 := by
  induction keep generalizing acc with
  | nil => exact hacc
  | cons k0 rest ih =>
    rw [List.foldl_cons]
    apply ih
    intro p hp
    unfold frStep at hp
    cases h0 : slookup k0 row with
    | none => rw [h0] at hp; exact hacc p hp
    | some v =>
      rw [h0] at hp
      rcases mem_pyDictInsert hp with h | h
      · rw [h]; exact h0
      · exact hacc p h

theorem filtered_row_mem (row : Row) (keep : List String) :
    ∀ p ∈ filtered_row row keep, slookup p.1 row = some p.2 :=
  frFold_mem row keep [] (fun p hp => absurd hp (List.not_mem_nil p))

/-! ## Lemmas about `filterRows` and `filter_fields` -/

theorem filterRows_length (keep : List String) :
    ∀ {rows out : List Val}, filterRows keep rows = .ok out → out.length = rows.length := by
  intro rows
  induction rows with
  | nil =>
    intro out h
    cases h
    rfl
  | cons r rest ih =>
    intro out h
    cases r with
    | vdict row =>
      rw [filterRows] at h
      cases h' : filterRows keep rest with
      | ok out' =>
        rw [h'] at h
        cases h
        simp [ih h']
      | error e => rw [h'] at h; cases h
    | vstr s => cases h
    | vint n => cases h
    | vnull => cases h
    | vlist l => cases h

theorem filterRows_idem (keep : List String) :
    ∀ {rows out : List Val}, filterRows keep rows = .ok out → filterRows keep out = .ok out := by
  intro rows
  induction rows with
  | nil =>
    intro out h
    cases h
    rfl
  | cons r rest ih =>
    intro out h
    cases r with
    | vdict row =>
      rw [filterRows] at h
      cases h' : filterRows keep rest with
      | ok out' =>
        rw [h'] at h
        cases h
        rw [filterRows, ih h', Except.map, filtered_row_idem]
      | error e => rw [h'] at h; cases h
    | vstr s => cases h
    | vint n => cases h
    | vnull => cases h
    | vlist l => cases h

theorem rowNoFab_filtered_row (row : Row) (keep : List String) :
    RowNoFab row (filtered_row row keep) := by
  constructor
  · intro k v hmem
    exact filtered_row_mem row keep (k, v) hmem
  · intro k hnone
    rw [filtered_row_lookup]
    by_cases hk : k ∈ keep
    · rw [if_pos hk]; exact hnone
    · rw [if_neg hk]

theorem filterRows_noFab (keep : List String) :
    ∀ {rows out : List Val}, filterRows keep rows = .ok out →
      List.Forall₂ ValNoFab rows out := by
  intro rows
  induction rows with
  | nil =>
    intro out h
    cases h
    exact List.Forall₂.nil
  | cons r rest ih =>
    intro out h
    cases r with
    | vdict row =>
      rw [filterRows] at h
      cases h' : filterRows keep rest with
      | ok out' =>
        rw [h'] at h
        cases h
        exact List.Forall₂.cons
          ⟨row, filtered_row row keep, rfl, rfl, rowNoFab_filtered_row row keep⟩
          (ih h')
      | error e => rw [h'] at h; cases h
    | vstr s => cases h
    | vint n => cases h
    | vnull => cases h
    | vlist l => cases h

/-- Claim C5: the Field Projector is idempotent — whenever `filter_fields`
succeeds on a data mapping, applying it again with the same selection to
its own output reproduces that output exactly (same filtered rows, same
`total_rows`). -/
theorem filter_fields_idempotent :
    ∀ (data : List (String × Val)) (sel : List (String × List String))
      (out : List (String × Val)),
      filter_fields data sel = Except.ok out → filter_fields out sel = Except.ok out := by
  intro data
  induction data with
  | nil =>
    intro sel out h
    cases h
    rfl
  | cons p rest ih =>
    obtain ⟨heading, content⟩ := p
    intro sel out h
    cases content with
    | vdict c =>
      simp only [filter_fields] at h
      cases hrows : dictGet c "rows" (Val.vlist []) with
      | vlist rows =>
        simp only [hrows] at h
        cases hfr : filterRows ((slookup heading sel).getD []) rows with
        | ok filtered =>
          simp only [hfr] at h
          cases hrest : filter_fields rest sel with
          | ok out' =>
            rw [hrest] at h
            simp only [Except.map] at h
            cases h
            have hih := ih sel out' hrest
            have hfr2 := filterRows_idem _ hfr
            have hget : dictGet
                [("rows", Val.vlist filtered), ("total_rows", Val.vint (rows.length : Int))]
                "rows" (Val.vlist []) = Val.vlist filtered := by
              simp [dictGet, slookup]
            simp only [filter_fields, hget, hfr2, hih, Except.map]
            rw [filterRows_length _ hfr]
          | error e => rw [hrest] at h; cases h
        | error e => simp only [hfr] at h; cases h
      | vstr s => simp only [hrows] at h; cases h
      | vint n => simp only [hrows] at h; cases h
      | vnull => simp only [hrows] at h; cases h
      | vdict c' => simp only [hrows] at h; cases h
    | vstr s => cases h
    | vint n => cases h
    | vnull => cases h
    | vlist l => cases h

/-- Claim C6: the Field Projector fabricates nothing — whenever
`filter_fields` succeeds, every sheet of the output pairs with its source
sheet, and every binding of a projected row is a binding of the
corresponding source row, while a field the source row lacks is silently
omitted (never added, in particular never added as null). -/
theorem filter_fields_no_fabrication :
    ∀ (data : List (String × Val)) (sel : List (String × List String))
      (out : List (String × Val)),
      filter_fields data sel = Except.ok out →
      List.Forall₂
        (fun pd pq => pd.1 = pq.1 ∧
          List.Forall₂ ValNoFab (rowsOfContent pd.2) (rowsOfContent pq.2))
        data out := by
  intro data
  induction data with
  | nil =>
    intro sel out h
    cases h
    exact List.Forall₂.nil
  | cons p rest ih =>
    obtain ⟨heading, content⟩ := p
    intro sel out h
    cases content with
    | vdict c =>
      simp only [filter_fields] at h
      cases hrows : dictGet c "rows" (Val.vlist []) with
      | vlist rows =>
        simp only [hrows] at h
        cases hfr : filterRows ((slookup heading sel).getD []) rows with
        | ok filtered =>
          simp only [hfr] at h
          cases hrest : filter_fields rest sel with
          | ok out' =>
            rw [hrest] at h
            simp only [Except.map] at h
            cases h
            refine List.Forall₂.cons ⟨rfl, ?_⟩ (ih sel out' hrest)
            have hsrc : rowsOfContent (Val.vdict c) = rows := by
              simp [rowsOfContent, hrows]
            have hout : rowsOfContent
                (Val.vdict [("rows", Val.vlist filtered),
                            ("total_rows", Val.vint (rows.length : Int))]) = filtered := by
              simp [rowsOfContent, dictGet, slookup]
            rw [hsrc, hout]
            exact filterRows_noFab _ hfr
          | error e => rw [hrest] at h; cases h
        | error e => simp only [hfr] at h; cases h
      | vstr s => simp only [hrows] at h; cases h
      | vint n => simp only [hrows] at h; cases h
      | vnull => simp only [hrows] at h; cases h
      | vdict c' => simp only [hrows] at h; cases h
    | vstr s => cases h
    | vint n => cases h
    | vnull => cases h
    | vlist l => cases h

/-! ## Lemmas about `loaderPost` -/

theorem loaderPost_keys :
    ∀ {resp d : List (String × Val)}, loaderPost resp = Except.ok d →
      d.map Prod.fst = resp.map Prod.fst := by
  intro resp
  induction resp with
  | nil =>
    intro d h
    cases h
    rfl
  | cons p rest ih =>
    obtain ⟨k, content⟩ := p
    intro d h
    cases content with
    | vdict c =>
      rw [loaderPost] at h
      cases hr : slookup "rows" c with
      | some v =>
        cases v with
        | vlist rows =>
          rw [hr] at h
          cases hrest : loaderPost rest with
          | ok d2 =>
            rw [hrest] at h
            simp only [Except.map] at h
            cases h
            simp [ih hrest]
          | error e => rw [hrest] at h; cases h
        | vstr s => rw [hr] at h; cases h
        | vint n => rw [hr] at h; cases h
        | vnull => rw [hr] at h; cases h
        | vdict c' => rw [hr] at h; cases h
      | none => rw [hr] at h; cases h
    | vstr s => cases h
    | vint n => cases h
    | vnull => cases h
    | vlist l => cases h

/-- Amended claim C2: the Field Projector does emit a selection-independent
total row count per sheet, but it is the length of the loaded `rows` list,
which is one **more** than the `total_rows` the Data Fetcher stored
(`len(rows) - 1`): for every fetched response that the loader
post-processes and every selection, each sheet of the projected view
carries `total_rows = n + 1` where `n` is the snapshot's `total_rows`. -/
theorem projector_total_rows_one_more_than_loader :
    ∀ (resp d : List (String × Val)) (sel : List (String × List String))
      (p : List (String × Val)),
      loaderPost resp = Except.ok d → filter_fields d sel = Except.ok p →
      List.Forall₂
        (fun pd pp => pd.1 = pp.1 ∧
          ∃ n : Int, totalRowsVal pd.2 = some n ∧ totalRowsVal pp.2 = some (n + 1))
        d p := by
  intro resp
  induction resp with
  | nil =>
    intro d sel p hL hF
    cases hL
    cases hF
    exact List.Forall₂.nil
  | cons q rest ih =>
    obtain ⟨k, content⟩ := q
    intro d sel p hL hF
    cases content with
    | vdict c =>
      rw [loaderPost] at hL
      cases hr : slookup "rows" c with
      | some v =>
        cases v with
        | vlist rows =>
          rw [hr] at hL
          cases hrest : loaderPost rest with
          | ok d2 =>
            rw [hrest] at hL
            simp only [Except.map] at hL
            cases hL
            have hgetRows :
                dictGet (pyDictInsert c "total_rows" (Val.vint ((rows.length : Int) - 1)))
                  "rows" (Val.vlist []) = Val.vlist rows := by
              unfold dictGet
              rw [slookup_pyDictInsert, if_neg (by decide), hr]
              rfl
            simp only [filter_fields] at hF
            simp only [hgetRows] at hF
            cases hfr : filterRows ((slookup k sel).getD []) rows with
            | ok filtered =>
              simp only [hfr] at hF
              cases hFrest : filter_fields d2 sel with
              | ok p2 =>
                rw [hFrest] at hF
                simp only [Except.map] at hF
                cases hF
                refine List.Forall₂.cons ⟨rfl, (rows.length : Int) - 1, ?_, ?_⟩
                  (ih d2 sel p2 hrest hFrest)
                · have h1 : slookup "total_rows"
                      (pyDictInsert c "total_rows" (Val.vint ((rows.length : Int) - 1))) =
                      some (Val.vint ((rows.length : Int) - 1)) := by
                    rw [slookup_pyDictInsert, if_pos rfl]
                  simp [totalRowsVal, h1]
                · simp [totalRowsVal, slookup]
              | error e => rw [hFrest] at hF; cases hF
            | error e => simp only [hfr] at hF; cases hF
          | error e => rw [hrest] at hL; cases hL
        | vstr s => rw [hr] at hL; cases hL
        | vint n => rw [hr] at hL; cases hL
        | vnull => rw [hr] at hL; cases hL
        | vdict c' => rw [hr] at hL; cases hL
      | none => rw [hr] at hL; cases hL
    | vstr s => cases hL
    | vint n => cases hL
    | vnull => cases hL
    | vlist l => cases hL

/-- Claim C1 (code bug): `get_summary` re-indexes the sheet's own content
dictionary by the sheet name, so it scans an empty row list and answers
`None` even though the loaded snapshot holds a row whose matched field's
trimmed string form equals the trimmed target — the outcome the claim and
the function's own docstring require it to return. -/
theorem get_summary_returns_none_despite_matching_row :
    get_summary "Checklist" "Task ID" "T1" exState1 = Except.ok none ∧
    loadedRows exState1 "Checklist" = [Val.vdict [("Task ID", Val.vstr "T1")]] ∧
    rowMatches [("Task ID", Val.vstr "T1")] "Task ID" "T1" = true :=
  ⟨rfl, rfl, by decide⟩

/-- Counterexample to claim C2: for a fetched `Checklist` of two rows, the
Data Fetcher stores `total_rows = 1` (`len(rows) - 1`) while the Field
Projector emits `total_rows = 2` — the two counts are never equal. -/
theorem projector_total_rows_disagrees_with_loader :
    loaderPost exResp = Except.ok exLoaded ∧
    filter_fields exLoaded exSel = Except.ok exProj ∧
    sheetTotalRows exLoaded "Checklist" = some 1 ∧
    sheetTotalRows exProj "Checklist" = some 2 :=
  ⟨rfl, rfl, rfl, rfl⟩

/-- Witness for the amended claim C2 at a concrete fetched response. -/
theorem projector_total_rows_one_more_than_loader_witness :
    List.Forall₂
      (fun pd pp => pd.1 = pp.1 ∧
        ∃ n : Int, totalRowsVal pd.2 = some n ∧ totalRowsVal pp.2 = some (n + 1))
      exLoaded exProj :=
  projector_total_rows_one_more_than_loader exResp exLoaded exSel exProj rfl rfl

/-- Counterexample to claim C3: the selector stores an oracle output that
names a sheet absent from the Sheet Catalog; nothing drops it. -/
theorem selector_keeps_unknown_sheet :
    (selectorUpdate exState3
        (ParseOutcome.mapping [("NotASheet", ["Imaginary Field"])])).relevant_sheets
      = RelSheets.mapping [("NotASheet", ["Imaginary Field"])] ∧
    slookup "NotASheet" sheetCatalog = none :=
  ⟨rfl, by decide⟩

/-- Amended claim C3: the Relevance Selector performs no validation at
all — whatever value the oracle's text parses to, mapping or not, is
stored verbatim in `relevant_sheets` (unknown sheets and fields
included), and only a parse failure yields the empty selection. -/
theorem selector_stores_parsed_output_unvalidated :
    ∀ (st : AgentState) (m : List (String × List String)) (j : NonDictJson),
      (selectorUpdate st (ParseOutcome.mapping m)).relevant_sheets = RelSheets.mapping m ∧
      (selectorUpdate st (ParseOutcome.nonDict j)).relevant_sheets = RelSheets.other j ∧
      (selectorUpdate st ParseOutcome.failure).relevant_sheets = RelSheets.mapping [] :=
  fun _ _ _ => ⟨rfl, rfl, rfl⟩

/-- Counterexample to claim C4: with a non-empty selection, a failed
remote fetch makes `loader` re-raise instead of producing a state with an
empty snapshot — the turn aborts. -/
theorem loader_propagates_fetch_failure_concrete :
    loader exState4 (Except.error "ConnectionError") =
      Except.error "ConnectionError" :=
  rfl

/-- Amended claim C4: the loader has no error handling — a failed remote
fetch propagates and aborts the turn; only a successful fetch produces a
loaded state, and its sheets are exactly the sheets of the response (a
sheet missing from the response is silently absent, no empty snapshot is
synthesized for it). -/
theorem loader_fetch_failure_aborts_turn :
    ∀ (st : AgentState) (m : List (String × List String)) (e : String)
      (resp d' : List (String × Val)),
      st.relevant_sheets = RelSheets.mapping m → m ≠ [] →
      loaderPost resp = Except.ok d' →
      loader st (Except.error e) = Except.error e ∧
      loader st (Except.ok resp) = Except.ok { st with data := .dict d' } ∧
      d'.map Prod.fst = resp.map Prod.fst := by
  intro st m e resp d' hm hne hpost
  have hlen : m.length ≠ 0 := by
    cases m with
    | nil => exact absurd rfl hne
    | cons a l => simp
  refine ⟨?_, ?_, loaderPost_keys hpost⟩
  · unfold loader
    rw [hm]
    dsimp only
    rw [if_pos hlen]
  · unfold loader
    rw [hm]
    dsimp only
    rw [if_pos hlen]
    simp only [hpost]

/-- Witness for the amended claim C4 at a concrete state and response. -/
theorem loader_fetch_failure_aborts_turn_witness :
    loader exState4 (Except.error "boom") = Except.error "boom" ∧
    loader exState4 (Except.ok exResp) = Except.ok { exState4 with data := .dict exLoaded } ∧
    exLoaded.map Prod.fst = exResp.map Prod.fst :=
  loader_fetch_failure_aborts_turn exState4 [("Checklist", ["Task ID"])] "boom" exResp exLoaded
    rfl (by decide) rfl

/-- Witness for claim C5 at a concrete mapping and selection. -/
theorem filter_fields_idempotent_witness :
    filter_fields exOut exSel = Except.ok exOut :=
  filter_fields_idempotent exData exSel exOut rfl

/-- Witness for claim C6 at a concrete mapping and selection. -/
theorem filter_fields_no_fabrication_witness :
    List.Forall₂
      (fun pd pq => pd.1 = pq.1 ∧
        List.Forall₂ ValNoFab (rowsOfContent pd.2) (rowsOfContent pq.2))
      exData exOut :=
  filter_fields_no_fabrication exData exSel exOut rfl

/-- Counterexample to claim C7: the oracle text `["Checklist"]` is valid
JSON but not the expected mapping, yet `json.loads` succeeds, so the
selector stores the array verbatim instead of falling back to the empty
selection — and the loader then aborts the turn with `AttributeError` at
`state['relevant_sheets'].keys()`. -/
theorem selector_nonmapping_output_aborts_turn :
    (selectorUpdate exState3
        (ParseOutcome.nonDict (NonDictJson.arr [Val.vstr "Checklist"]))).relevant_sheets
      = RelSheets.other (NonDictJson.arr [Val.vstr "Checklist"]) ∧
    loader (selectorUpdate exState3
        (ParseOutcome.nonDict (NonDictJson.arr [Val.vstr "Checklist"])))
        (Except.ok exResp)
      = Except.error "AttributeError: object has no attribute keys" :=
  ⟨rfl, rfl⟩

/-- Amended claim C7: the selector falls back to an empty selection only
when `json.loads` itself raises; a response that parses as valid JSON of
the wrong shape (not an object) is stored verbatim, and the turn then
aborts in the loader — `AttributeError` at `.keys()` when the stored
value is non-empty, or the `len()` `TypeError` when it has no length at
all. -/
theorem selector_fallback_only_on_parse_exception :
    ∀ (st : AgentState) (j : NonDictJson) (n : Nat) (e : String)
      (fetchResult : Except String (List (String × Val))),
      selectorUpdate st ParseOutcome.failure =
        { st with relevant_sheets := RelSheets.mapping [] } ∧
      (selectorUpdate st (ParseOutcome.nonDict j)).relevant_sheets = RelSheets.other j ∧
      (pyLenNonDict j = Except.ok n → n ≠ 0 →
        loader (selectorUpdate st (ParseOutcome.nonDict j)) fetchResult =
          Except.error "AttributeError: object has no attribute keys") ∧
      (pyLenNonDict j = Except.error e →
        loader (selectorUpdate st (ParseOutcome.nonDict j)) fetchResult =
          Except.error e) := by
  intro st j n e fetchResult
  refine ⟨rfl, rfl, ?_, ?_⟩
  · intro h1 h2
    unfold loader selectorUpdate
    dsimp only
    rw [h1]
    dsimp only
    rw [if_pos h2]
  · intro h1
    unfold loader selectorUpdate
    dsimp only
    rw [h1]

/-- Witness for the amended claim C7: a non-empty JSON array is stored
verbatim and the loader aborts the turn. -/
theorem selector_fallback_only_on_parse_exception_witness :
    selectorUpdate exState3 ParseOutcome.failure =
      { exState3 with relevant_sheets := RelSheets.mapping [] } ∧
    (selectorUpdate exState3
        (ParseOutcome.nonDict (NonDictJson.arr [Val.vstr "Checklist"]))).relevant_sheets
      = RelSheets.other (NonDictJson.arr [Val.vstr "Checklist"]) ∧
    loader (selectorUpdate exState3
        (ParseOutcome.nonDict (NonDictJson.arr [Val.vstr "Checklist"])))
        (Except.ok exResp)
      = Except.error "AttributeError: object has no attribute keys" := by
  have h := selector_fallback_only_on_parse_exception exState3
    (NonDictJson.arr [Val.vstr "Checklist"]) 1 "unused" (Except.ok exResp)
  exact ⟨h.1, h.2.1, h.2.2.1 rfl (by decide)⟩

/-- Claim C8: the cache refresh visits every sheet of `SHEETS` in order;
per sheet the event is a save exactly when fetching and saving succeeded
and a reported failure exactly when one of them raised, and a failure on
one sheet never removes later sheets from the batch. -/
theorem mainRefresh_processes_all_sheets :
    ∀ (fetch : String → Except String Val) (save : String → Val → Except String Unit),
      (mainRefresh fetch save).map eventSheet = SHEETS ∧
      List.Forall₂
        (fun s ev =>
          (∃ d, refreshSheet fetch save s = Except.ok d ∧ ev = RefreshEvent.saved s d) ∨
          (∃ e, refreshSheet fetch save s = Except.error e ∧ ev = RefreshEvent.failed s e))
        SHEETS (mainRefresh fetch save) := by
  intro fetch save
  have aux : ∀ l : List String,
      (l.map (fun s =>
        match refreshSheet fetch save s with
        | .ok d => RefreshEvent.saved s d
        | .error e => RefreshEvent.failed s e)).map eventSheet = l ∧
      List.Forall₂
        (fun s ev =>
          (∃ d, refreshSheet fetch save s = Except.ok d ∧ ev = RefreshEvent.saved s d) ∨
          (∃ e, refreshSheet fetch save s = Except.error e ∧ ev = RefreshEvent.failed s e))
        l
        (l.map (fun s =>
          match refreshSheet fetch save s with
          | .ok d => RefreshEvent.saved s d
          | .error e => RefreshEvent.failed s e)) := by
    intro l
    induction l with
    | nil => exact ⟨rfl, List.Forall₂.nil⟩
    | cons s rest ih =>
      rw [List.map_cons]
      cases h : refreshSheet fetch save s with
      | ok d =>
        refine ⟨?_, ?_⟩
        · rw [List.map_cons]
          simp only [h, eventSheet, ih.1]
        · exact List.Forall₂.cons (Or.inl ⟨d, h, by simp [h]⟩) ih.2
      | error e =>
        refine ⟨?_, ?_⟩
        · rw [List.map_cons]
          simp only [h, eventSheet, ih.1]
        · exact List.Forall₂.cons (Or.inr ⟨e, h, by simp [h]⟩) ih.2
  exact aux SHEETS

/-- Claim C9: out of the answering node the `tools` edge is taken exactly
when the oracle's last message requests tool invocations, the `END` edge
exactly otherwise; the edge out of the tool node is unconditionally back
to the answering node, with the tool results appended to the
conversation. -/
theorem model_to_tools_iff_tool_calls :
    ∀ (st : AgentState) (results : List Message),
      (nextNode st Node.model = Node.tools ↔ requestsToolCalls st) ∧
      (nextNode st Node.model = Node.done ↔ ¬ requestsToolCalls st) ∧
      nextNode st Node.tools = Node.model ∧
      (toolNode st results).messages = st.messages ++ results := by
  intro st results
  have hcond : ∀ n : Node, nextNode st Node.model = n ↔ tools_condition st = n :=
    fun _ => Iff.rfl
  have hreq : tools_condition st = Node.tools ↔ requestsToolCalls st := by
    unfold tools_condition requestsToolCalls
    cases hl : st.messages.getLast? with
    | none =>
      dsimp only
      constructor
      · intro h; cases h
      · rintro ⟨m, hm, -⟩; cases hm
    | some m =>
      dsimp only
      by_cases hc : m.tool_calls = []
      · rw [if_neg (fun h => h hc)]
        constructor
        · intro h; cases h
        · rintro ⟨m', hm', hne⟩
          cases hm'
          exact (hne hc).elim
      · rw [if_pos hc]
        exact ⟨fun _ => ⟨m, rfl, hc⟩, fun _ => rfl⟩
  have hdone : tools_condition st = Node.done ↔ ¬ requestsToolCalls st := by
    constructor
    · intro h hr
      have := hreq.mpr hr
      rw [h] at this
      cases this
    · intro hr
      unfold tools_condition
      cases hl : st.messages.getLast? with
      | none => rfl
      | some m =>
        dsimp only
        by_cases hc : m.tool_calls = []
        · rw [if_neg (fun h => h hc)]
        · exact absurd (⟨m, hl, hc⟩ : requestsToolCalls st) hr
  exact ⟨(hcond Node.tools).trans hreq, (hcond Node.done).trans hdone, rfl, rfl⟩

/-- Witness for claim C9 at a concrete state requesting one tool call. -/
theorem model_to_tools_iff_tool_calls_witness :
    ((nextNode exState9 Node.model = Node.tools ↔ requestsToolCalls exState9) ∧
     (nextNode exState9 Node.model = Node.done ↔ ¬ requestsToolCalls exState9) ∧
     nextNode exState9 Node.tools = Node.model ∧
     (toolNode exState9 exResults).messages = exState9.messages ++ exResults) :=
  model_to_tools_iff_tool_calls exState9 exResults

/-- Claim C10: every `/chat` request of one server process is recorded
under the single module-level `thread_id` — over any request sequence the
history of that one thread accumulates every turn of every client, and no
other thread's history is ever touched; no per-request or per-client
session isolation exists. -/
theorem chat_single_thread_shared_history :
    ∀ (tid : String) (store : Store) (reqs : List (String × Message)) (k : String),
      k ≠ tid →
      slookup k (handleRequests tid store reqs) = slookup k store ∧
      histOf (handleRequests tid store reqs) tid =
        histOf store tid ++ (reqs.map (fun rr => [userMessage rr.1, rr.2])).flatten := by
  intro tid store reqs
  induction reqs generalizing store with
  | nil =>
    intro k hk
    exact ⟨rfl, by simp [handleRequests, histOf]⟩
  | cons rr rest ih =>
    intro k hk
    have hstep : handleRequests tid store (rr :: rest) =
        handleRequests tid (chatEndpoint tid store rr.1 rr.2) rest := rfl
    have h1 : slookup k (chatEndpoint tid store rr.1 rr.2) = slookup k store := by
      show slookup k (pyDictInsert store tid _) = _
      rw [slookup_pyDictInsert, if_neg hk]
    have h2 : histOf (chatEndpoint tid store rr.1 rr.2) tid =
        histOf store tid ++ [userMessage rr.1, rr.2] := by
      unfold histOf
      show (slookup tid (pyDictInsert store tid _)).getD [] = _
      rw [slookup_pyDictInsert, if_pos rfl]
      rfl
    rcases ih (chatEndpoint tid store rr.1 rr.2) k hk with ⟨ihA, ihB⟩
    rw [hstep]
    refine ⟨ihA.trans h1, ?_⟩
    rw [ihB, h2]
    simp [List.append_assoc]

/-- Witness for claim C10: two requests from different clients both land
in the one thread's history; the unrelated thread is untouched. -/
theorem chat_single_thread_shared_history_witness :
    slookup "other-thread" (handleRequests "t-1" exStore exReqs) =
      slookup "other-thread" exStore ∧
    histOf (handleRequests "t-1" exStore exReqs) "t-1" =
      histOf exStore "t-1" ++ (exReqs.map (fun rr => [userMessage rr.1, rr.2])).flatten :=
  chat_single_thread_shared_history "t-1" exStore exReqs "other-thread" (by decide)

end Diya
